import Mathlib

/-!
Verification of the breadboard enclosure-controller firmware.

The definitions below are a shallow embedding of the relevant Python
sources: the request router of src/pico_enclosure/api.py and the device,
event-action and supervisor layers of src/breadboard.  Python dicts are
modelled as association lists with python assignment semantics (insert
replaces the first matching key, otherwise appends), exceptions as
Except values, and the cooperative async runtime as explicit traces of
observable steps (log writes, action executions, sleeps).
-/

namespace Breadboard

/-- Python dict read: d.get(k) / d[k]. Returns the value stored at the first
matching key, none when absent. -/
def pyGet {κ α : Type} [DecidableEq κ] (d : List (κ × α)) (k : κ) : Option α :=
  match d with
  | [] => none
  | (k2, v) :: rest => if k2 = k then some v else pyGet rest k

/-- Python dict assignment: d[k] = v. Replaces the value at an existing key
in place, otherwise appends the binding, preserving insertion order. -/
def pySet {α : Type} (d : List (String × α)) (k : String) (v : α) :
    List (String × α) :=
  match d with
  | [] => [(k, v)]
  | (k2, v2) :: rest =>
      if k2 = k then (k2, v) :: rest else (k2, v2) :: pySet rest k v

/-- Helper for pySplit, working over the character list. -/
def splitCharAux (sep : Char) : List Char → List (List Char)
  | [] => [[]]
  | c :: rest =>
      let r := splitCharAux sep rest
      if c = sep then [] :: r
      else
        match r with
        | [] => [[c]]
        | g :: gs => (c :: g) :: gs

/-- Python str.split(sep) for a one-character separator: the maximal runs
between separator occurrences, so the empty string yields one empty piece
and n separators yield n+1 pieces. -/
def pySplit (sep : Char) (s : String) : List String :=
  (splitCharAux sep s.data).map (fun l => String.mk l)

/-! ## JSON values

Models the Python objects that route handlers return and that json.dumps
serialises: dicts keep their insertion order of keys. -/

inductive JsonVal : Type where
  | nullV : JsonVal
  | str : String → JsonVal
  | num : Int → JsonVal
  | arr : List JsonVal → JsonVal
  | obj : List (String × JsonVal) → JsonVal
deriving Repr

/-! ## Router model (src/pico_enclosure/api.py)

A handler call either returns a Python value or raises; route_requests
inspects the shape of the returned value.  PyResult.io stands for a
seekable buffer result (StringIO / BytesIO) whose character content is the
given string. -/

inductive PyResult : Type where
  | nonePy : PyResult
  | dict : List (String × JsonVal) → PyResult
  | list : List JsonVal → PyResult
  | io : String → PyResult
  | raised : String → PyResult

/-- Query parameters: the flat string-to-string mapping parsed from the
request target. -/
abbrev Params : Type := List (String × String)

/-- Handlers as stored in API._routes: invoked with the parsed query
parameters as keyword arguments. -/
abbrev Handler : Type := Params → PyResult

namespace HTTP_CONTENT_TYPE

def HTML : String := "text/html"

def JSON : String := "application/json"

def ICON : String := "image/vnd.microsoft.icon"

end HTTP_CONTENT_TYPE

/-- One write of route_requests to the response stream.  statusHeaders is
the status line plus the content-type header; htmlPre and htmlPost are the
surrounding page template writes with their fill-ins; jsonBody is the
json.dumps of the given value, written in bounded chunks; ioBody is the
content of a buffer result, written in bounded chunks. -/
inductive Chunk : Type where
  | statusHeaders : Nat → String → String → Chunk
  | htmlPre : String → List String → Chunk
  | jsonBody : JsonVal → Chunk
  | ioBody : String → Chunk
  | htmlPost : Chunk
deriving Repr

inductive LogLevel : Type where
  | debug | info | warn | error
deriving DecidableEq, Repr

/-- The single log entry route_requests emits for a written response:
log_method(log_message, route=..., status_code=..., source=...).  paramsMsg
carries the parameters rendered into the message (empty when params was
None or empty). -/
structure RRLog : Type where
  level : LogLevel
  paramsMsg : List (String × String)
  route : String
  statusCode : Nat
  source : String
deriving Repr

/-- Parsing of the query string: dict(v.split("=") for v in s.split("&")).
A piece that does not split into exactly key and value raises ValueError. -/
def parseParams (s : String) : Except String Params :=
  (pySplit (Char.ofNat 38) s).foldlM
    (fun acc piece =>
      match pySplit (Char.ofNat 61) piece with
      | [k, v] => Except.ok (pySet acc k v)
      | _ => Except.error "ValueError")
    []

/-- Parsing of the request line: split on spaces into exactly method, target
and protocol (otherwise ValueError), then split the target on the question
mark into route and optional query parameters. -/
def parseRequestLine (request : String) : Except String (String × Option Params) :=
  match pySplit (Char.ofNat 32) request with
  | [_, requestPath, _] =>
      let parts := pySplit (Char.ofNat 63) requestPath
      let route := parts.headD ""
      if parts.length = 2 then
        match parseParams (parts.getD 1 "") with
        | Except.error e => Except.error e
        | Except.ok ps => Except.ok (route, some ps)
      else
        Except.ok (route, none)
  | _ => Except.error "ValueError"

/-- The parameters rendered into the JSON envelope: params or the empty
dict, each value kept as a string. -/
def paramsJson (params : Option Params) : JsonVal :=
  JsonVal.obj ((params.getD []).map (fun kv => (kv.1, JsonVal.str kv.2)))

/-- Dispatch of a parsed request against the route table, following the
try/except/finally of route_requests.  A missing route raises KeyError,
caught and mapped to the 404 branch; a raising handler is mapped to the
500 branch; but in every branch where result stayed None the finally
block raises a bare Exception before anything is logged or written, so
only a handler call that returns a non-None value produces output. -/
def dispatch (routes : List (String × Handler)) (navbarItems : List String)
    (route : String) (params : Option Params) (peer : String) :
    Except String (List Chunk × RRLog) :=
  match pyGet routes route with
  | none => Except.error "Exception"
  | some h =>
      match h (params.getD []) with
      | PyResult.raised _ => Except.error "Exception"
      | PyResult.nonePy => Except.error "Exception"
      | PyResult.dict kvs =>
          let log : RRLog :=
            ⟨LogLevel.info, params.getD [], route, 200, peer⟩
          let envelope := JsonVal.obj
            [("parameters", paramsJson params),
             ("response", JsonVal.obj kvs),
             ("status", JsonVal.num 200)]
          Except.ok
            ([Chunk.statusHeaders 200 "OK" HTTP_CONTENT_TYPE.JSON,
              Chunk.jsonBody envelope], log)
      | PyResult.list xs =>
          let log : RRLog :=
            ⟨LogLevel.info, params.getD [], route, 200, peer⟩
          let envelope := JsonVal.obj
            [("parameters", paramsJson params),
             ("response", JsonVal.arr xs),
             ("status", JsonVal.num 200)]
          Except.ok
            ([Chunk.statusHeaders 200 "OK" HTTP_CONTENT_TYPE.JSON,
              Chunk.jsonBody envelope], log)
      | PyResult.io content =>
          let log : RRLog :=
            ⟨LogLevel.info, params.getD [], route, 200, peer⟩
          if route = "/favicon.ico" then
            Except.ok
              ([Chunk.statusHeaders 200 "OK" HTTP_CONTENT_TYPE.ICON,
                Chunk.ioBody content], log)
          else
            Except.ok
              ([Chunk.statusHeaders 200 "OK" HTTP_CONTENT_TYPE.HTML,
                Chunk.htmlPre route navbarItems,
                Chunk.ioBody content,
                Chunk.htmlPost], log)

/-- API.route_requests: parse the request line, look the route up and write
the response.  The Except.error results are exceptions escaping the
coroutine: the connection is dropped with nothing logged and nothing
written. -/
def route_requests (routes : List (String × Handler)) (navbarItems : List String)
    (requestLine : String) (peer : String) :
    Except String (List Chunk × RRLog) :=
  match parseRequestLine requestLine with
  | Except.error e => Except.error e
  | Except.ok (route, params) => dispatch routes navbarItems route params peer

/-! ## Route registration (API.route, src/pico_enclosure/api.py lines 279-315)

The mutable API object: the route table, the navbar item list, the
documentation table and the show_docs flag fixed at construction.  The
handler type is a parameter so the registration logic is independent of
what a handler is. -/

structure ApiState (α : Type) : Type where
  routes : List (String × α)
  navbarItems : List String
  doc : List (String × List (String × String))
  showDocs : Bool
deriving Repr

/-- Appending a documented endpoint: base_route = route.split("/")[1]; a
missing base key is first bound to the empty list, then the pair is
appended. -/
def docAppend (d : List (String × List (String × String)))
    (base : String) (entry : String × String) :
    List (String × List (String × String)) :=
  match pyGet d base with
  | none => d ++ [(base, [entry])]
  | some l => pySet d base (l ++ [entry])

namespace API

/-- API.route: returns the wrapped decorator applied to the endpoint.  With
show_docs the endpoint is stored in the route table (assignment semantics:
a duplicate path replaces the prior handler), optionally appended to the
navbar items and to the documentation table; the comparison of the
endpoint class object against the string "bound_method" is always false,
so desc is always empty and the RuntimeError branch is unreachable.
Without show_docs the wrapper returns the endpoint untouched. -/
def route {α : Type} (s : ApiState α) (routePath : String)
    (doc : Bool) (navbar : Bool) (endpoint : α) :
    α × ApiState α :=
  if s.showDocs then
    let desc := ""
    let s1 : ApiState α := { s with routes := pySet s.routes routePath endpoint }
    let s2 : ApiState α :=
      if navbar then { s1 with navbarItems := s1.navbarItems ++ [routePath] }
      else s1
    let s3 : ApiState α :=
      if doc && s.showDocs then
        { s2 with
          doc := docAppend s2.doc ((pySplit (Char.ofNat 47) routePath).getD 1 "") (routePath, desc) }
      else s2
    (endpoint, s3)
  else
    (endpoint, s)

end API

/-! ## Event actions (src/breadboard/event_actions.py)

An event action is a nullary asynchronous callable.  A webhook records
whether opening the connection raises an OSError (carrying its text); a
device call records the outcome of the bound method invocation, resolved
against the device registry at load time. -/

instance exceptDecEq {ε α : Type} [DecidableEq ε] [DecidableEq α] :
    DecidableEq (Except ε α) := fun a b =>
  match a, b with
  | Except.ok x, Except.ok y =>
      if h : x = y then Decidable.isTrue (by rw [h])
      else Decidable.isFalse (fun he => by cases he; exact h rfl)
  | Except.error e1, Except.error e2 =>
      if h : e1 = e2 then Decidable.isTrue (by rw [h])
      else Decidable.isFalse (fun he => by cases he; exact h rfl)
  | Except.ok _, Except.error _ => Decidable.isFalse (fun he => by cases he)
  | Except.error _, Except.ok _ => Decidable.isFalse (fun he => by cases he)

inductive ActionKind : Type where
  | webhook : Option String → ActionKind
  | deviceCall : Except String Unit → ActionKind
deriving Repr, DecidableEq

structure EvAction : Type where
  id : Nat
  kind : ActionKind
deriving Repr, DecidableEq

/-- Observable steps of the device runtime: log writes, the award of one
event action call, and timed sleeps. -/
inductive TEvent : Type where
  | logDebug : String → TEvent
  | logError : String → TEvent
  | actionRun : Nat → TEvent
  | sleep : Rat → TEvent
deriving Repr, DecidableEq

/-- Calling one event action.  Webhook.__call__ wraps its socket work in a
try/except OSError: a connection failure is logged at error level and
swallowed, so the call itself returns normally; on success a debug line is
written before the request is sent.  DeviceAction.__call__ awaits the
bound method, whose exceptions propagate. -/
def runEvAction (a : EvAction) : List TEvent × Except String Unit :=
  match a.kind with
  | ActionKind.webhook none =>
      ([TEvent.actionRun a.id, TEvent.logDebug "Sending"], Except.ok ())
  | ActionKind.webhook (some err) =>
      ([TEvent.actionRun a.id, TEvent.logError err], Except.ok ())
  | ActionKind.deviceCall (Except.ok ()) =>
      ([TEvent.actionRun a.id], Except.ok ())
  | ActionKind.deviceCall (Except.error e) =>
      ([TEvent.actionRun a.id], Except.error e)

/-- The for loop of StatefulDevice.process_events over one bound action
list: strictly sequential, each call awaited to completion before the
next; an exception stops the loop and propagates. -/
def runEvActions : List EvAction → List TEvent × Except String Unit
  | [] => ([], Except.ok ())
  | a :: rest =>
      let (t, r) := runEvAction a
      match r with
      | Except.error e => (t, Except.error e)
      | Except.ok () =>
          let (t2, r2) := runEvActions rest
          (t ++ t2, r2)

/-- The event table built by the supervisor: device name to state to the
ordered bound action list. -/
abbrev EventTable : Type := List (String × List (String × List EvAction))

/-- events.get(self.name, dict()).get(self.state, list()). -/
def eventsFor (events : EventTable) (name state : String) : List EvAction :=
  (pyGet ((pyGet events name).getD []) state).getD []

/-! ## ToggleButton (src/breadboard/button.py lines 25-62) -/

structure TB : Type where
  name : String
  _state : String
  _lastState : Option Bool
  pollSleep : Rat
deriving Repr, DecidableEq

/-- The two fixed states of a toggle button. -/
def tbStates : List String := ["off", "on"]

/-- ToggleButton.toggle_state: read the input pin; when it differs from
the stored last value, set the state from the pin level, log the change
at debug level and remember the pin value; otherwise leave everything
unchanged. -/
def toggle_state (input : Bool) (b : TB) : TB × List TEvent :=
  if b._lastState ≠ some input then
    let st := if input then tbStates.getD 1 "" else tbStates.getD 0 ""
    ({ b with _state := st, _lastState := some input },
     [TEvent.logDebug (b.name ++ " state changed to " ++ st)])
  else
    (b, [])

/-- StatefulDevice.process_events for a toggle button: first recompute the
state via manage_state (bound to toggle_state at construction), then
execute every action bound to the device name and the current state, in
order, each awaited before the next; an action exception propagates. -/
def process_events (events : EventTable) (input : Bool) (b : TB) :
    TB × List TEvent × Except String Unit :=
  let (b2, t1) := toggle_state input b
  let (t2, r) := runEvActions (eventsFor events b2.name b2._state)
  (b2, t1 ++ t2, r)

/-- ToggleButton._loop, run for one input sample per iteration: forever
await process_events, then sleep the poll interval.  An exception escaping
process_events ends the task: no sleep and no further iterations. -/
def tbLoop (events : EventTable) (b : TB) :
    List Bool → TB × List TEvent × Except String Unit
  | [] => (b, [], Except.ok ())
  | input :: rest =>
      let (b2, t, r) := process_events events input b
      match r with
      | Except.error e => (b2, t, Except.error e)
      | Except.ok () =>
          let (b3, t2, r2) := tbLoop events b2 rest
          (b3, t ++ [TEvent.sleep b2.pollSleep] ++ t2, r2)

/-! ## Tolerant factory and device registry (src/breadboard/base.py lines
18-28, src/breadboard/devices.py lines 88-120) -/

/-- One error log of the tolerant factory: logger.error(e, name=cls.__name__),
the exception text plus the class name of the device kind. -/
structure DevLog : Type where
  message : String
  clsName : String
deriving Repr, DecidableEq

/-- A device entry of the configuration document: the declared kind under
the key "device" plus the remaining kind-specific parameters. -/
structure DeviceEntry : Type where
  device : String
  params : List (String × String)
deriving Repr, DecidableEq

/-- The reserved top-level configuration keys that are not device
declarations. -/
def RESERVED_KEYS : List String := ["network", "chains", "context", "events"]

/-- Whether a top-level configuration key is reserved. -/
def isReserved (k : String) : Bool := k ∈ RESERVED_KEYS

/-- BaseDevice.try_to_instantiate: wrap a constructor so that a raising
construction is caught and logged with the class name, yielding no
device. -/
def try_to_instantiate {δ : Type} (clsName : String)
    (ctor : String → List (String × String) → Except String δ) :
    String → List (String × String) → Option δ × List DevLog :=
  fun name params =>
    match ctor name params with
    | Except.ok d => (some d, [])
    | Except.error e => (none, [⟨e, clsName⟩])

/-- A factory as stored in DEVICE_MAP: the result of try_to_instantiate. -/
abbrev Factory (δ : Type) : Type :=
  String → List (String × String) → Option δ × List DevLog

/-- The dict comprehension of Devices.__init__, entry by entry in document
order: every entry is looked up in DEVICE_MAP and its factory called with
the entry name and parameters.  The lookup of an unrecognized kind raises
KeyError, which nothing catches: the whole construction aborts with that
exception. -/
def buildRawList {δ : Type} (deviceMap : List (String × Factory δ)) :
    List (String × DeviceEntry) →
    Except String (List (String × Option δ) × List DevLog)
  | [] => Except.ok ([], [])
  | p :: rest =>
      match pyGet deviceMap p.2.device with
      | none => Except.error p.2.device
      | some factory =>
          let (d, logs) := factory p.1 p.2.params
          match buildRawList deviceMap rest with
          | Except.error e => Except.error e
          | Except.ok (pairs, logs2) => Except.ok ((p.1, d) :: pairs, logs ++ logs2)

/-- Devices.__init__ device phase: run the comprehension over the
non-reserved entries, then drop the entries whose construction yielded
nothing. -/
def devicesInit {δ : Type} (deviceMap : List (String × Factory δ))
    (config : List (String × DeviceEntry)) :
    Except String (List (String × δ) × List DevLog) :=
  match buildRawList deviceMap (config.filter (fun e => ! isReserved e.1)) with
  | Except.error e => Except.error e
  | Except.ok (pairs, logs) =>
      Except.ok (pairs.filterMap (fun p => p.2.map (fun d => (p.1, d))), logs)

/-! ## Chains (src/breadboard/devices.py lines 122-146) -/

/-- A constructed device as the chain compiler sees it: the set of
attribute names that getattr resolves to an operation. -/
structure Dev : Type where
  ops : List String
deriving Repr

/-- One step of a configured chain: a device name, an action name and the
remaining keyword arguments baked into the curried call. -/
structure ChainStep : Type where
  device : String
  action : String
  args : List (String × String)
deriving Repr, DecidableEq

/-- The error logs the chain loop can emit: failedFindDevice carries the
KeyError text and the chain name from the message Failed to find device;
failedLoadAction carries the chain name from the message Failed to load
action; attrError is the bare exception text logged right after it. -/
inductive ChainLog : Type where
  | failedFindDevice : String → String → ChainLog
  | failedLoadAction : String → ChainLog
  | attrError : String → ChainLog
deriving Repr, DecidableEq

/-- Whether a log entry names the given chain in its arguments. -/
def namesChain (c : String) : ChainLog → Bool
  | ChainLog.failedFindDevice _ c2 => c2 = c
  | ChainLog.failedLoadAction c2 => c2 = c
  | ChainLog.attrError _ => false

/-- The inner step loop of the chain compiler: look the device of each
step up in the registry (a missing device raises KeyError: one error log
naming the chain, then break), resolve the action with getattr (a missing
attribute raises: two error logs, the first naming the chain, then break)
and append the curried step.  The for-else yields the compiled list only
when the loop finished without break. -/
def compile_chain (devices : List (String × Dev)) (chainName : String) :
    List ChainStep → List ChainStep → List ChainLog × Option (List ChainStep)
  | [], acc => ([], some acc)
  | step :: rest, acc =>
      match pyGet devices step.device with
      | none => ([ChainLog.failedFindDevice step.device chainName], none)
      | some d =>
          if step.action ∈ d.ops then
            compile_chain devices chainName rest (acc ++ [step])
          else
            ([ChainLog.failedLoadAction chainName,
              ChainLog.attrError step.action], none)

/-- The chain phase of Devices.__init__: every configured chain is compiled
independently; a compiled chain is registered as the route /chain/name
only when a network is configured. -/
def compile_chains (devices : List (String × Dev)) (network : Bool)
    (chains : List (String × List ChainStep)) :
    List ChainLog × List (String × List ChainStep) :=
  (chains.flatMap (fun c => (compile_chain devices c.1 c.2 []).1),
   chains.filterMap (fun c =>
     match (compile_chain devices c.1 c.2 []).2 with
     | some compiled =>
         if network then some ("/chain/" ++ c.1, compiled) else none
     | none => none))

/-! ## StatefulDevice.state and Switch (src/breadboard/base.py lines 45-50,
src/breadboard/switch.py lines 47-60) -/

namespace StatefulDevice

/-- The state read accessor: raises RuntimeError when no state has been
assigned yet, otherwise returns the current state. -/
def state (st : Option String) : Except String String :=
  match st with
  | none => Except.error "A state must be set"
  | some s => Except.ok s

end StatefulDevice

/-- Keys of the _pins_to_state dict of a switch: a GPIO pin number or the
OFF_STATE marker. -/
inductive PinKey : Type where
  | hw : Nat → PinKey
  | off : PinKey
deriving Repr, DecidableEq

instance : BEq PinKey := instBEqOfDecidableEq

structure SwitchDev : Type where
  name : String
  _states : List String
  pinsToState : List (PinKey × (Option Nat × String))
  _state : String
deriving Repr, DecidableEq

/-- The scan of Switch.manage_state over the _pins_to_state values: the
first active pin whose mapped state differs from the current one wins;
scanning remembers whether any pin at all was active. -/
def switchScan (pinVal : Nat → Bool) (cur : String) :
    List (Option Nat × String) → Bool → Bool × Option String
  | [], act => (act, none)
  | (some pin, st) :: rest, act =>
      if pinVal pin then
        if st ≠ cur then (true, some st) else switchScan pinVal cur rest true
      else switchScan pinVal cur rest act
  | (none, _) :: rest, act => switchScan pinVal cur rest act

/-- Switch.manage_state: scan the pins; on a winning pin adopt its state;
when no pin is active fall back to the state mapped to OFF_STATE if the
current state differs (looking that mapping up can raise KeyError when no
state was declared OFF). -/
def manage_state (pinVal : Nat → Bool) (d : SwitchDev) :
    Except String SwitchDev :=
  match switchScan pinVal d._state (d.pinsToState.map Prod.snd) false with
  | (_, some st) => Except.ok { d with _state := st }
  | (act, none) =>
      if act then Except.ok d
      else
        match pyGet d.pinsToState PinKey.off with
        | none => Except.error "KeyError"
        | some (_, offSt) =>
            if d._state ≠ offSt then Except.ok { d with _state := offSt }
            else Except.ok d

/-! ## Generic facts about the python dict model -/

theorem pyGet_mem {κ α : Type} [DecidableEq κ] {d : List (κ × α)} {k : κ} {v : α}
    (h : pyGet d k = some v) : (k, v) ∈ d := by
  induction d with
  | nil => simp [pyGet] at h
  | cons p rest ih =>
      obtain ⟨k2, v2⟩ := p
      by_cases hk : k2 = k
      · subst hk
        simp [pyGet] at h
        simp [h]
      · simp [pyGet, hk] at h
        exact List.mem_cons_of_mem _ (ih h)

theorem pyGet_eq_none_iff {κ α : Type} [DecidableEq κ] (d : List (κ × α)) (k : κ) :
    pyGet d k = none ↔ ∀ v : α, ¬ (k, v) ∈ d := by
  induction d with
  | nil => simp [pyGet]
  | cons p rest ih =>
      obtain ⟨k2, v2⟩ := p
      by_cases hk : k2 = k
      · subst hk
        constructor
        · intro h; simp [pyGet] at h
        · intro h; exact absurd (List.mem_cons_self _ _) (h v2)
      · constructor
        · intro h v hv
          rcases List.mem_cons.mp hv with h1 | h1
          · cases h1; exact hk rfl
          · exact (ih.mp (by simpa [pyGet, hk] using h)) v h1
        · intro h
          simp only [pyGet, hk, if_false]
          exact ih.mpr (fun v hv => h v (List.mem_cons_of_mem _ hv))

/-! ## Claim theorems -/

/-- C1: behaviour of route_requests at the failing input GET /nope when
/nope is absent from the route table.  The KeyError branch assigns the 404
status code and the error log method, but the finally block sees result
still None and raises a bare Exception first: the coroutine aborts with no
status line written and no log entry emitted, contradicting the claimed
404 response and single error-level log naming the path. -/
theorem C1_missing_path_raises_instead_of_404 :
    route_requests
      [("/fan/set", fun _ => PyResult.dict [("state", JsonVal.str "on")]),
       ("/docs", fun _ => PyResult.io "generated documentation")]
      ["/docs"] "GET /nope HTTP/1.1" "192.168.0.7:50000"
      = Except.error "Exception" := rfl

/-- C7: the state read accessor fails with the precondition error when no
state has been assigned yet, and returns the current state without error
once one has been. -/
theorem C7_state_accessor_semantics :
    StatefulDevice.state none = Except.error "A state must be set"
    ∧ ∀ s : String, StatefulDevice.state (some s) = Except.ok s :=
  ⟨rfl, fun _ => rfl⟩

/-- C10: with show_docs disabled, API.route returns the handler unchanged
and leaves the whole API state - route table, navbar items, documentation
table - untouched, so request routing behaves exactly as if the call had
never happened and the path stays unreachable. -/
theorem C10_route_with_docs_disabled_is_inert
    (s : ApiState Handler) (routePath : String) (doc navbar : Bool)
    (endpoint : Handler) (h : s.showDocs = false) :
    API.route s routePath doc navbar endpoint = (endpoint, s)
    ∧ ∀ (navs : List String) (line peer : String),
        route_requests (API.route s routePath doc navbar endpoint).2.routes
            navs line peer
          = route_requests s.routes navs line peer := by
  have h1 : API.route s routePath doc navbar endpoint = (endpoint, s) := by
    simp [API.route, h]
  exact ⟨h1, fun navs line peer => by rw [h1]⟩

/-- C10 witness: a concrete API constructed with show_docs disabled, a
concrete path and handler. -/
theorem C10_witness :
    API.route (⟨[], [], [], false⟩ : ApiState Handler) "/ghost" true false
        (fun _ => PyResult.dict [])
      = (fun _ => PyResult.dict [], (⟨[], [], [], false⟩ : ApiState Handler)) :=
  (C10_route_with_docs_disabled_is_inert ⟨[], [], [], false⟩ "/ghost" true false
    (fun _ => PyResult.dict []) rfl).1

/-- C2 counterexample: a toggle button named btn that stays in state off
across an iteration (input low, last seen value low, so the recomputed
state equals the previous iteration state) still executes the action bound
to (btn, off): actions are not gated on a state change. -/
theorem C2_counterexample_actions_run_without_change :
    (process_events [("btn", [("off", [⟨0, ActionKind.deviceCall (Except.ok ())⟩])])]
        false ⟨"btn", "off", some false, 1/10⟩).1._state = "off"
    ∧ TEvent.actionRun 0 ∈
      (process_events [("btn", [("off", [⟨0, ActionKind.deviceCall (Except.ok ())⟩])])]
        false ⟨"btn", "off", some false, 1/10⟩).2.1 := by decide

/-- C3 counterexample: a bound action list whose first action raises: the
exception escapes process_events and ends the device loop (the loop result
is the error, the second action never runs, no further iteration and no
poll sleep happen), contradicting the claim that a failure never
propagates out of the triggering device loop. -/
theorem C3_counterexample_exception_crashes_loop :
    (tbLoop [("btn", [("off",
          [⟨0, ActionKind.deviceCall (Except.error "boom")⟩,
           ⟨1, ActionKind.deviceCall (Except.ok ())⟩])])]
        ⟨"btn", "off", none, 1/10⟩ [false, false]).2.2 = Except.error "boom"
    ∧ TEvent.actionRun 1 ∉
      (tbLoop [("btn", [("off",
          [⟨0, ActionKind.deviceCall (Except.error "boom")⟩,
           ⟨1, ActionKind.deviceCall (Except.ok ())⟩])])]
        ⟨"btn", "off", none, 1/10⟩ [false, false]).2.1
    ∧ TEvent.sleep (1/10) ∉
      (tbLoop [("btn", [("off",
          [⟨0, ActionKind.deviceCall (Except.error "boom")⟩,
           ⟨1, ActionKind.deviceCall (Except.ok ())⟩])])]
        ⟨"btn", "off", none, 1/10⟩ [false, false]).2.1 := by decide

theorem toggle_state_name (input : Bool) (b : TB) :
    ((toggle_state input b).1).name = b.name := by
  unfold toggle_state; split <;> rfl

theorem toggle_state_pollSleep (input : Bool) (b : TB) :
    ((toggle_state input b).1).pollSleep = b.pollSleep := by
  unfold toggle_state; split <;> rfl

/-- When every action of the list runs without raising, the sequential
execution runs them all, in order, and succeeds. -/
theorem runEvActions_all_ok (acts : List EvAction)
    (h : ∀ a ∈ acts, (runEvAction a).2 = Except.ok ()) :
    runEvActions acts
      = (acts.flatMap (fun a => (runEvAction a).1), Except.ok ()) := by
  induction acts with
  | nil => rfl
  | cons a rest ih =>
      have ha : (runEvAction a).2 = Except.ok () := h a (List.mem_cons_self _ _)
      have hr := ih (fun x hx => h x (List.mem_cons_of_mem _ hx))
      simp only [runEvActions]
      rcases hE : runEvAction a with ⟨t, r⟩
      have ha2 : r = Except.ok () := by rw [hE] at ha; exact ha
      subst ha2
      rw [hr]
      simp [List.flatMap_cons, hE]

/-- C2 (amended): on each iteration of the perpetual loop the device first
recomputes its state, and the actions bound to (device name, recomputed
state) are executed on EVERY iteration, whether or not the recomputed
state differs from the previous one; they run strictly in binding order,
each awaited to completion before the next, followed by the kind-specific
poll-interval sleep, after which the next iteration proceeds from the
recomputed state. -/
theorem C2_actions_run_every_iteration
    (events : EventTable) (b : TB) (input : Bool) (rest : List Bool)
    (hok : ∀ a ∈ eventsFor events b.name ((toggle_state input b).1)._state,
        (runEvAction a).2 = Except.ok ()) :
    tbLoop events b (input :: rest) =
      ((tbLoop events (toggle_state input b).1 rest).1,
       (toggle_state input b).2
         ++ (eventsFor events b.name ((toggle_state input b).1)._state).flatMap
              (fun a => (runEvAction a).1)
         ++ TEvent.sleep b.pollSleep
           :: (tbLoop events (toggle_state input b).1 rest).2.1,
       (tbLoop events (toggle_state input b).1 rest).2.2) := by
  have hname := toggle_state_name input b
  have hps := toggle_state_pollSleep input b
  simp only [tbLoop, process_events]
  rcases hT : toggle_state input b with ⟨b2, t1⟩
  rw [hT] at hname hps hok
  dsimp only at hname hps hok
  have hrun := runEvActions_all_ok (eventsFor events b2.name b2._state)
    (by rw [hname]; exact hok)
  rw [hrun]
  rcases hL : tbLoop events b2 rest with ⟨b3, t2, r2⟩
  simp [hname, hps]

/-- C2 witness: one loop iteration of a concrete toggle button whose state
does not change, with one succeeding bound action. -/
theorem C2_actions_run_every_iteration_witness :
    tbLoop [("btn", [("off", [⟨0, ActionKind.deviceCall (Except.ok ())⟩])])]
        ⟨"btn", "off", some false, 1/10⟩ [false]
      = (⟨"btn", "off", some false, 1/10⟩,
         [TEvent.actionRun 0, TEvent.sleep (1/10)], Except.ok ()) := by
  have h := C2_actions_run_every_iteration
    [("btn", [("off", [⟨0, ActionKind.deviceCall (Except.ok ())⟩])])]
    ⟨"btn", "off", some false, 1/10⟩ false [] (by decide)
  simpa using h

/-- C3 (amended): execution of a bound action list is strictly sequential;
an action that raises makes the remaining actions of that list for that
trigger be skipped, and the exception propagates out of process_events,
ending the device loop with no further iterations; the remote-notify
action, however, catches its connection errors internally and logs them at
error level, so an unreachable remote-notify target does not raise and the
next bound entry still executes. -/
theorem C3_sequential_skip_and_propagate :
    (∀ (a : EvAction) (rest : List EvAction) (e : String),
        (runEvAction a).2 = Except.error e →
        runEvActions (a :: rest) = ((runEvAction a).1, Except.error e))
    ∧ (∀ (i : Nat) (err : String) (rest : List EvAction),
        runEvActions (⟨i, ActionKind.webhook (some err)⟩ :: rest)
          = (TEvent.actionRun i :: TEvent.logError err :: (runEvActions rest).1,
             (runEvActions rest).2))
    ∧ (∀ (events : EventTable) (b : TB) (input : Bool) (rest : List Bool)
          (e : String),
        (process_events events input b).2.2 = Except.error e →
        tbLoop events b (input :: rest)
          = ((process_events events input b).1,
             (process_events events input b).2.1, Except.error e)) := by
  refine ⟨?_, ?_, ?_⟩
  · intro a rest e h
    simp only [runEvActions]
    rcases hE : runEvAction a with ⟨t, r⟩
    have h2 : r = Except.error e := by rw [hE] at h; exact h
    subst h2
    simp [hE]
  · intro i err rest
    simp only [runEvActions, runEvAction]
    rcases hR : runEvActions rest with ⟨t2, r2⟩
    simp
  · intro events b input rest e h
    simp only [tbLoop]
    rcases hP : process_events events input b with ⟨b2, t, r⟩
    have h2 : r = Except.error e := by rw [hP] at h; exact h
    subst h2
    simp [hP]

/-- C3 witness: concrete applications of each part - a raising device call
followed by a skipped action, an unreachable webhook followed by an action
that still runs, and a loop ended by the propagated exception. -/
theorem C3_sequential_skip_and_propagate_witness :
    runEvActions [⟨0, ActionKind.deviceCall (Except.error "EIO")⟩,
        ⟨1, ActionKind.deviceCall (Except.ok ())⟩]
      = ([TEvent.actionRun 0], Except.error "EIO")
    ∧ runEvActions [⟨0, ActionKind.webhook (some "ECONNABORTED")⟩,
        ⟨1, ActionKind.deviceCall (Except.ok ())⟩]
      = ([TEvent.actionRun 0, TEvent.logError "ECONNABORTED",
          TEvent.actionRun 1], Except.ok ())
    ∧ tbLoop [("btn", [("off", [⟨0, ActionKind.deviceCall (Except.error "EIO")⟩])])]
        ⟨"btn", "off", some false, 1/10⟩ [false, false]
      = (⟨"btn", "off", some false, 1/10⟩, [TEvent.actionRun 0],
         Except.error "EIO") := by
  refine ⟨?_, ?_, ?_⟩
  · exact C3_sequential_skip_and_propagate.1
      ⟨0, ActionKind.deviceCall (Except.error "EIO")⟩
      [⟨1, ActionKind.deviceCall (Except.ok ())⟩] "EIO" rfl
  · have h := C3_sequential_skip_and_propagate.2.1 0 "ECONNABORTED"
      [⟨1, ActionKind.deviceCall (Except.ok ())⟩]
    simpa using h
  · have h := C3_sequential_skip_and_propagate.2.2
      [("btn", [("off", [⟨0, ActionKind.deviceCall (Except.error "EIO")⟩])])]
      ⟨"btn", "off", some false, 1/10⟩ false [false] "EIO" (by decide)
    simpa using h

/-- C5 counterexample: a configuration with one valid Fan entry and one
entry of unrecognized kind Frobnicator.  Loading does not complete with
the unknown device merely absent and logged: the DEVICE_MAP lookup raises
an uncaught KeyError and the whole device registry construction aborts,
the valid device included. -/
theorem C5_counterexample_unknown_kind_aborts :
    devicesInit
      [("Fan", try_to_instantiate "Fan" (fun n _ => Except.ok n))]
      [("good_fan", ⟨"Fan", [("pin", "17")]⟩),
       ("weird", ⟨"Frobnicator", []⟩)]
      = Except.error "Frobnicator" := rfl

/-- A list containing an entry of unrecognized kind makes the
comprehension raise. -/
theorem buildRawList_error_of_unknown {δ : Type}
    (deviceMap : List (String × Factory δ)) (l : List (String × DeviceEntry))
    (h : ∃ p ∈ l, pyGet deviceMap p.2.device = none) :
    ∃ msg : String, buildRawList deviceMap l = Except.error msg := by
  induction l with
  | nil => simp at h
  | cons p rest ih =>
      rcases h with ⟨q, hq, hnone⟩
      cases hP : pyGet deviceMap p.2.device with
      | none => exact ⟨p.2.device, by simp [buildRawList, hP]⟩
      | some f =>
          rcases List.mem_cons.mp hq with hqp | hq2
          · rw [hqp] at hnone
            rw [hnone] at hP
            cases hP
          · obtain ⟨msg, hmsg⟩ := ih ⟨q, hq2, hnone⟩
            refine ⟨msg, ?_⟩
            simp only [buildRawList, hP]
            rcases hF : f p.1 p.2.params with ⟨d, logs⟩
            rw [hmsg]

/-- C5 (amended): an entry whose declared kind is not a key of the
kind-to-factory table makes the DEVICE_MAP lookup raise an uncaught
KeyError: configuration loading aborts with that exception instead of
completing, so no device registry is produced at all - the unrecognized
kind is not logged and the remaining devices are not available either. -/
theorem C5_unknown_kind_aborts_loading {δ : Type}
    (deviceMap : List (String × Factory δ)) (config : List (String × DeviceEntry))
    (n : String) (e : DeviceEntry)
    (hmem : (n, e) ∈ config) (hres : ¬ n ∈ RESERVED_KEYS)
    (hunknown : pyGet deviceMap e.device = none) :
    ∃ msg : String, devicesInit deviceMap config = Except.error msg := by
  have hmemf : (n, e) ∈ config.filter (fun q => ! isReserved q.1) :=
    List.mem_filter.mpr ⟨hmem, by simp [isReserved, hres]⟩
  obtain ⟨msg, hmsg⟩ := buildRawList_error_of_unknown deviceMap
    (config.filter (fun q => ! isReserved q.1)) ⟨(n, e), hmemf, hunknown⟩
  exact ⟨msg, by simp [devicesInit, hmsg]⟩

/-- C5 witness for the amended claim: a single-entry configuration of
unrecognized kind. -/
theorem C5_unknown_kind_aborts_loading_witness :
    ∃ msg : String,
      devicesInit [("Fan", try_to_instantiate "Fan"
          (fun n _ => Except.ok n))]
        [("lamp", ⟨"Sparkler", []⟩)]
        = Except.error msg :=
  C5_unknown_kind_aborts_loading _ _ "lamp" ⟨"Sparkler", []⟩
    (List.mem_singleton.mpr rfl) (by decide) rfl

/-- The factory outcome of one configuration entry whose kind resolves in
the factory table. -/
def entryFactory {δ : Type} (deviceMap : List (String × Factory δ))
    (p : String × DeviceEntry) : Option δ × List DevLog :=
  match pyGet deviceMap p.2.device with
  | some f => f p.1 p.2.params
  | none => (none, [])

/-- When every kind resolves, the comprehension succeeds and returns the
per-entry factory results in document order together with the concatenated
logs. -/
theorem buildRawList_ok {δ : Type}
    (deviceMap : List (String × Factory δ)) (l : List (String × DeviceEntry))
    (h : ∀ p ∈ l, (pyGet deviceMap p.2.device).isSome) :
    buildRawList deviceMap l
      = Except.ok (l.map (fun p => (p.1, (entryFactory deviceMap p).1)),
                   l.flatMap (fun p => (entryFactory deviceMap p).2)) := by
  induction l with
  | nil => rfl
  | cons p rest ih =>
      have hp := h p (List.mem_cons_self _ _)
      cases hP : pyGet deviceMap p.2.device with
      | none => rw [hP] at hp; simp at hp
      | some f =>
          have hr := ih (fun q hq => h q (List.mem_cons_of_mem _ hq))
          simp only [buildRawList, hP]
          rcases hF : f p.1 p.2.params with ⟨d, logs⟩
          rw [hr]
          simp [entryFactory, hP, hF]

/-- Two bindings of the same key in a list with nodup keys carry the same
value. -/
theorem nodup_keys_unique {α : Type} {l : List (String × α)}
    (h : (l.map Prod.fst).Nodup) {k : String} {x y : α}
    (hx : (k, x) ∈ l) (hy : (k, y) ∈ l) : x = y := by
  induction l with
  | nil => cases hx
  | cons p rest ih =>
      rw [List.map_cons, List.nodup_cons] at h
      obtain ⟨hk, hrest⟩ := h
      rcases List.mem_cons.mp hx with hx1 | hx2
      · rcases List.mem_cons.mp hy with hy1 | hy2
        · rw [← hx1] at hy1
          exact (Prod.mk.injEq _ _ _ _ ▸ hy1.symm).2
        · exfalso
          apply hk
          rw [← hx1]
          exact List.mem_map.mpr ⟨(k, y), hy2, rfl⟩
      · rcases List.mem_cons.mp hy with hy1 | hy2
        · exfalso
          apply hk
          rw [← hy1]
          exact List.mem_map.mpr ⟨(k, x), hx2, rfl⟩
        · exact ih hrest hx2 hy2

/-- C4: a device entry whose constructor raises is caught by the tolerant
factory wrapper, which logs the failure with the device kind class name
and yields no device: loading completes, the failed device is absent from
the registry, and every other entry whose construction succeeds is still
present - startup is not aborted. -/
theorem C4_failed_construction_isolated {δ : Type}
    (deviceMap : List (String × Factory δ)) (config : List (String × DeviceEntry))
    (n : String) (en : DeviceEntry) (cls msg : String)
    (ctor : String → List (String × String) → Except String δ)
    (hall : ∀ p ∈ config.filter (fun q => ! isReserved q.1),
        (pyGet deviceMap p.2.device).isSome)
    (hnodup : (config.map Prod.fst).Nodup)
    (hmem : (n, en) ∈ config) (hnres : ¬ n ∈ RESERVED_KEYS)
    (hfac : pyGet deviceMap en.device = some (try_to_instantiate cls ctor))
    (hfail : ctor n en.params = Except.error msg) :
    ∃ (devs : List (String × δ)) (logs : List DevLog),
      devicesInit deviceMap config = Except.ok (devs, logs)
      ∧ DevLog.mk msg cls ∈ logs
      ∧ pyGet devs n = none
      ∧ ∀ (m : String) (e2 : DeviceEntry) (f : Factory δ) (d : δ),
          (m, e2) ∈ config → ¬ m ∈ RESERVED_KEYS →
          pyGet deviceMap e2.device = some f →
          (f m e2.params).1 = some d →
          (m, d) ∈ devs := by
  have hbuild := buildRawList_ok deviceMap
    (config.filter (fun q => ! isReserved q.1)) hall
  have hmemf : (n, en) ∈ config.filter (fun q => ! isReserved q.1) :=
    List.mem_filter.mpr ⟨hmem, by simp [isReserved, hnres]⟩
  have hEF : entryFactory deviceMap (n, en) = (none, [⟨msg, cls⟩]) := by
    simp [entryFactory, hfac, try_to_instantiate, hfail]
  refine ⟨(config.filter (fun q => ! isReserved q.1)).filterMap
      (fun p => ((entryFactory deviceMap p).1).map (fun d => (p.1, d))),
    (config.filter (fun q => ! isReserved q.1)).flatMap
      (fun p => (entryFactory deviceMap p).2), ?_, ?_, ?_, ?_⟩
  · simp only [devicesInit, hbuild, List.filterMap_map]
    rfl
  · exact List.mem_flatMap.mpr ⟨(n, en), hmemf, by rw [hEF]; exact List.mem_singleton.mpr rfl⟩
  · rw [pyGet_eq_none_iff]
    intro v hv
    obtain ⟨p, hp, hgp⟩ := List.mem_filterMap.mp hv
    obtain ⟨d0, hd0, hpair⟩ := Option.map_eq_some'.mp hgp
    have hp1 : p.1 = n := congrArg Prod.fst hpair
    have hpconf : p ∈ config := (List.mem_filter.mp hp).1
    have hpn : (n, p.2) ∈ config := by rw [← hp1]; exact hpconf
    have heq : p.2 = en := nodup_keys_unique hnodup hpn hmem
    have hpeq : p = (n, en) := by
      cases p; simp_all
    rw [hpeq, hEF] at hd0
    cases hd0
  · intro m e2 f d hm hmres hf hd
    refine List.mem_filterMap.mpr
      ⟨(m, e2), List.mem_filter.mpr ⟨hm, by simp [isReserved, hmres]⟩, ?_⟩
    have hef : entryFactory deviceMap (m, e2) = f m e2.params := by
      simp [entryFactory, hf]
    rw [hef, hd]
    rfl

/-- A Fan constructor that raises on a missing pin parameter, for the C4
witness configuration. -/
def demoCtorFan : String → List (String × String) → Except String String :=
  fun n ps =>
    match pyGet ps "pin" with
    | none => Except.error "KeyError: pin"
    | some _ => Except.ok n

/-- A constructor that always succeeds, for the C4 witness
configuration. -/
def demoCtorLed : String → List (String × String) → Except String String :=
  fun n _ => Except.ok n

/-- A concrete factory table with two recognized kinds. -/
def demoDeviceMap : List (String × Factory String) :=
  [("Fan", try_to_instantiate "Fan" demoCtorFan),
   ("Led", try_to_instantiate "Led" demoCtorLed)]

/-- A concrete configuration whose Fan entry lacks the pin parameter while
the Led entry is valid. -/
def demoConfig : List (String × DeviceEntry) :=
  [("fan1", ⟨"Fan", []⟩), ("led1", ⟨"Led", [("pin", "2")]⟩)]

/-- C4 witness: the Fan entry fails construction and is absent while the
valid Led entry still loads. -/
theorem C4_failed_construction_isolated_witness :
    ∃ (devs : List (String × String)) (logs : List DevLog),
      devicesInit demoDeviceMap demoConfig = Except.ok (devs, logs)
      ∧ DevLog.mk "KeyError: pin" "Fan" ∈ logs
      ∧ pyGet devs "fan1" = none
      ∧ ∀ (m : String) (e2 : DeviceEntry) (f : Factory String) (d : String),
          (m, e2) ∈ demoConfig → ¬ m ∈ RESERVED_KEYS →
          pyGet demoDeviceMap e2.device = some f →
          (f m e2.params).1 = some d →
          (m, d) ∈ devs :=
  C4_failed_construction_isolated demoDeviceMap demoConfig "fan1" ⟨"Fan", []⟩
    "Fan" "KeyError: pin" demoCtorFan
    (by decide) (by decide) (by simp [demoConfig]) (by decide) rfl rfl

theorem string_append_cancel_left {s t u : String} (h : s ++ t = s ++ u) :
    t = u := by
  have h2 : (s ++ t).data = (s ++ u).data := by rw [h]
  rw [String.data_append, String.data_append] at h2
  exact String.ext (List.append_cancel_left h2)

/-- Unfolding equation of the chain step loop. -/
theorem compile_chain_cons (devices : List (String × Dev)) (c : String)
    (step : ChainStep) (rest acc : List ChainStep) :
    compile_chain devices c (step :: rest) acc =
      match pyGet devices step.device with
      | none => ([ChainLog.failedFindDevice step.device c], none)
      | some d =>
          if step.action ∈ d.ops then
            compile_chain devices c rest (acc ++ [step])
          else
            ([ChainLog.failedLoadAction c, ChainLog.attrError step.action], none) :=
  rfl

theorem compile_chain_cons_none (devices : List (String × Dev)) (c : String)
    (step : ChainStep) (rest acc : List ChainStep)
    (h : pyGet devices step.device = none) :
    compile_chain devices c (step :: rest) acc
      = ([ChainLog.failedFindDevice step.device c], none) := by
  rw [compile_chain_cons, h]

theorem compile_chain_cons_ok (devices : List (String × Dev)) (c : String)
    (step : ChainStep) (rest acc : List ChainStep) (d : Dev)
    (h : pyGet devices step.device = some d) (hop : step.action ∈ d.ops) :
    compile_chain devices c (step :: rest) acc
      = compile_chain devices c rest (acc ++ [step]) := by
  rw [compile_chain_cons, h]
  exact if_pos hop

theorem compile_chain_cons_bad (devices : List (String × Dev)) (c : String)
    (step : ChainStep) (rest acc : List ChainStep) (d : Dev)
    (h : pyGet devices step.device = some d) (hop : ¬ step.action ∈ d.ops) :
    compile_chain devices c (step :: rest) acc
      = ([ChainLog.failedLoadAction c, ChainLog.attrError step.action], none) := by
  rw [compile_chain_cons, h]
  exact if_neg hop

/-- A chain that compiles resolves every one of its steps. -/
theorem compile_chain_ok_resolves (devices : List (String × Dev)) (c : String) :
    ∀ (steps acc out : List ChainStep),
      (compile_chain devices c steps acc).2 = some out →
      ∀ step ∈ steps, ∃ d, pyGet devices step.device = some d
        ∧ step.action ∈ d.ops := by
  intro steps
  induction steps with
  | nil => intro acc out _ step hstep; cases hstep
  | cons step rest ih =>
      intro acc out h q hq
      cases hP : pyGet devices step.device with
      | none => rw [compile_chain_cons_none devices c step rest acc hP] at h; cases h
      | some d =>
          by_cases hop : step.action ∈ d.ops
          · rw [compile_chain_cons_ok devices c step rest acc d hP hop] at h
            rcases List.mem_cons.mp hq with hq1 | hq2
            · exact ⟨d, by rw [hq1]; exact hP, by rw [hq1]; exact hop⟩
            · exact ih _ out h q hq2
          · rw [compile_chain_cons_bad devices c step rest acc d hP hop] at h
            cases h

/-- A chain that fails to compile logs exactly one error naming itself. -/
theorem compile_chain_fail_one_log (devices : List (String × Dev)) (c : String) :
    ∀ (steps acc : List ChainStep),
      (compile_chain devices c steps acc).2 = none →
      ((compile_chain devices c steps acc).1.countP
        (fun lg => namesChain c lg)) = 1 := by
  intro steps
  induction steps with
  | nil => intro acc h; cases h
  | cons step rest ih =>
      intro acc h
      cases hP : pyGet devices step.device with
      | none =>
          rw [compile_chain_cons_none devices c step rest acc hP]
          simp [namesChain]
      | some d =>
          by_cases hop : step.action ∈ d.ops
          · rw [compile_chain_cons_ok devices c step rest acc d hP hop] at h ⊢
            exact ih _ h
          · rw [compile_chain_cons_bad devices c step rest acc d hP hop]
            simp [namesChain]

/-- No log of one chain names a different chain. -/
theorem compile_chain_logs_other (devices : List (String × Dev)) (c c2 : String)
    (hne : c ≠ c2) :
    ∀ (steps acc : List ChainStep),
      ((compile_chain devices c steps acc).1.countP
        (fun lg => namesChain c2 lg)) = 0 := by
  intro steps
  induction steps with
  | nil => intro acc; rfl
  | cons step rest ih =>
      intro acc
      cases hP : pyGet devices step.device with
      | none =>
          rw [compile_chain_cons_none devices c step rest acc hP]
          simp [namesChain, hne]
      | some d =>
          by_cases hop : step.action ∈ d.ops
          · rw [compile_chain_cons_ok devices c step rest acc d hP hop]
            exact ih _
          · rw [compile_chain_cons_bad devices c step rest acc d hP hop]
            simp [namesChain, hne]

/-- Logs of a chain list that never mentions the key c never name c. -/
theorem compile_chains_logs_absent (devices : List (String × Dev)) (c : String) :
    ∀ chains : List (String × List ChainStep),
      ¬ c ∈ chains.map Prod.fst →
      ((chains.flatMap (fun ch => (compile_chain devices ch.1 ch.2 []).1)).countP
        (fun lg => namesChain c lg)) = 0 := by
  intro chains
  induction chains with
  | nil => intro _; rfl
  | cons ch rest ih =>
      intro h
      rw [List.map_cons] at h
      have h1 : ch.1 ≠ c := fun he => h (by rw [he]; exact List.mem_cons_self _ _)
      have h2 : ¬ c ∈ rest.map Prod.fst :=
        fun he => h (List.mem_cons_of_mem _ he)
      rw [List.flatMap_cons, List.countP_append,
        compile_chain_logs_other devices ch.1 c h1 ch.2 [], ih h2]

/-- C6: a configured chain with a step naming a nonexistent device is
dropped whole - no route is registered for it - and exactly one error
naming that chain is logged, while every other chain whose steps all
resolve is still compiled and registered (with a network configured);
chain failure is per-chain, never global. -/
theorem C6_failed_chain_dropped_logged_once
    (devices : List (String × Dev)) (chains : List (String × List ChainStep))
    (c : String) (steps : List ChainStep)
    (hnodup : (chains.map Prod.fst).Nodup)
    (hmem : (c, steps) ∈ chains)
    (hstep : ∃ step ∈ steps, pyGet devices step.device = none) :
    pyGet (compile_chains devices true chains).2 ("/chain/" ++ c) = none
    ∧ ((compile_chains devices true chains).1.countP
        (fun lg => namesChain c lg)) = 1
    ∧ ∀ (c2 : String) (steps2 out : List ChainStep),
        (c2, steps2) ∈ chains →
        (compile_chain devices c2 steps2 []).2 = some out →
        ("/chain/" ++ c2, out) ∈ (compile_chains devices true chains).2 := by
  have hfail : (compile_chain devices c steps []).2 = none := by
    cases h2 : (compile_chain devices c steps []).2 with
    | none => rfl
    | some out =>
        obtain ⟨q, hq, hnone⟩ := hstep
        obtain ⟨d, hd, _⟩ := compile_chain_ok_resolves devices c steps [] out h2 q hq
        rw [hnone] at hd; cases hd
  refine ⟨?_, ?_, ?_⟩
  · rw [pyGet_eq_none_iff]
    intro v hv
    obtain ⟨ch, hch, hcomp⟩ := List.mem_filterMap.mp hv
    cases h2 : (compile_chain devices ch.1 ch.2 []).2 with
    | none => rw [h2] at hcomp; cases hcomp
    | some out =>
        rw [h2] at hcomp
        simp only [if_true] at hcomp
        have hkey : "/chain/" ++ ch.1 = "/chain/" ++ c :=
          congrArg Prod.fst (Option.some.inj hcomp)
        have hc1 : ch.1 = c := string_append_cancel_left hkey
        have hch2 : (c, ch.2) ∈ chains := by
          rw [← hc1]; exact hch
        have : ch.2 = steps := nodup_keys_unique hnodup hch2 hmem
        rw [hc1, this] at h2
        rw [h2] at hfail; cases hfail
  · induction chains with
    | nil => cases hmem
    | cons ch rest ih =>
        rw [List.map_cons, List.nodup_cons] at hnodup
        obtain ⟨hk, hrest⟩ := hnodup
        simp only [compile_chains, List.flatMap_cons, List.countP_append]
        rcases List.mem_cons.mp hmem with h1 | h2
        · have hceq : c = ch.1 := congrArg Prod.fst h1
          have hfail2 : (compile_chain devices ch.1 ch.2 []).2 = none := by
            rw [← h1]; exact hfail
          rw [hceq, compile_chain_fail_one_log devices ch.1 ch.2 [] hfail2]
          have habs : ¬ ch.1 ∈ rest.map Prod.fst := hk
          rw [compile_chains_logs_absent devices ch.1 rest habs]
        · have hc_in : c ∈ rest.map Prod.fst :=
            List.mem_map.mpr ⟨(c, steps), h2, rfl⟩
          have hne : ch.1 ≠ c := fun he => hk (he ▸ hc_in)
          rw [compile_chain_logs_other devices ch.1 c hne ch.2 []]
          have := ih hrest h2
          simpa [compile_chains] using this
  · intro c2 steps2 out hmem2 hok
    refine List.mem_filterMap.mpr ⟨(c2, steps2), hmem2, ?_⟩
    rw [hok]
    simp

/-- C6 witness: the chain bad references the nonexistent device ghost and
registers no route, while the chain good still compiles and is
registered. -/
theorem C6_failed_chain_dropped_logged_once_witness :
    pyGet (compile_chains [("fan", ⟨["on"]⟩)] true
        [("good", [⟨"fan", "on", []⟩]), ("bad", [⟨"ghost", "on", []⟩])]).2
        "/chain/bad" = none
    ∧ ((compile_chains [("fan", ⟨["on"]⟩)] true
        [("good", [⟨"fan", "on", []⟩]), ("bad", [⟨"ghost", "on", []⟩])]).1.countP
        (fun lg => namesChain "bad" lg)) = 1
    ∧ ∀ (c2 : String) (steps2 out : List ChainStep),
        (c2, steps2) ∈ [("good", [(⟨"fan", "on", []⟩ : ChainStep)]),
          ("bad", [⟨"ghost", "on", []⟩])] →
        (compile_chain [("fan", ⟨["on"]⟩)] c2 steps2 []).2 = some out →
        ("/chain/" ++ c2, out)
          ∈ (compile_chains [("fan", ⟨["on"]⟩)] true
              [("good", [⟨"fan", "on", []⟩]), ("bad", [⟨"ghost", "on", []⟩])]).2 :=
  C6_failed_chain_dropped_logged_once [("fan", ⟨["on"]⟩)]
    [("good", [⟨"fan", "on", []⟩]), ("bad", [⟨"ghost", "on", []⟩])]
    "bad" [⟨"ghost", "on", []⟩]
    (by decide) (by simp)
    ⟨⟨"ghost", "on", []⟩, List.mem_singleton.mpr rfl, rfl⟩

/-- A state produced by the pin scan is one of the states mapped in the
pin table. -/
theorem switchScan_some_mem (pinVal : Nat → Bool) (cur : String) :
    ∀ (l : List (Option Nat × String)) (act x : Bool) (st : String),
      switchScan pinVal cur l act = (x, some st) →
      ∃ p ∈ l, p.2 = st := by
  intro l
  induction l with
  | nil => intro act x st h; cases h
  | cons p rest ih =>
      intro act x st h
      obtain ⟨pin?, st2⟩ := p
      cases pin? with
      | none =>
          simp only [switchScan] at h
          obtain ⟨q, hq, hqs⟩ := ih _ _ _ h
          exact ⟨q, List.mem_cons_of_mem _ hq, hqs⟩
      | some pin =>
          simp only [switchScan] at h
          by_cases hv : pinVal pin
          · rw [if_pos hv] at h
            by_cases hst : st2 ≠ cur
            · rw [if_pos hst] at h
              obtain ⟨_, h2⟩ := Prod.mk.injEq _ _ _ _ ▸ h
              exact ⟨(some pin, st2), List.mem_cons_self _ _,
                Option.some.inj h2⟩
            · rw [if_neg hst] at h
              obtain ⟨q, hq, hqs⟩ := ih _ _ _ h
              exact ⟨q, List.mem_cons_of_mem _ hq, hqs⟩
          · rw [if_neg hv] at h
            obtain ⟨q, hq, hqs⟩ := ih _ _ _ h
            exact ⟨q, List.mem_cons_of_mem _ hq, hqs⟩

/-- C8: the state-recompute steps preserve the state invariant: a toggle
button whose current state is in its fixed two-state enumeration stays in
it after toggle_state, and a switch whose current state and whose mapped
pin states all lie in its state list still has its (unchanged) state list
containing the single current state after manage_state. -/
theorem C8_recompute_preserves_enumeration :
    (∀ (input : Bool) (b : TB), b._state ∈ tbStates →
        ((toggle_state input b).1)._state ∈ tbStates)
    ∧ (∀ (pinVal : Nat → Bool) (d d2 : SwitchDev),
        d._state ∈ d._states →
        (∀ pv ∈ d.pinsToState, pv.2.2 ∈ d._states) →
        manage_state pinVal d = Except.ok d2 →
        d2._states = d._states ∧ d2._state ∈ d._states) := by
  constructor
  · intro input b hb
    unfold toggle_state
    split
    · cases input <;> simp [tbStates]
    · exact hb
  · intro pinVal d d2 hst hall hok
    unfold manage_state at hok
    rcases hS : switchScan pinVal d._state (d.pinsToState.map Prod.snd) false
      with ⟨act, res⟩
    rw [hS] at hok
    cases res with
    | some st =>
        have hd2 : { d with _state := st } = d2 := Except.ok.inj hok
        obtain ⟨p, hp, hps⟩ := switchScan_some_mem pinVal d._state _ _ _ _ hS
        obtain ⟨q, hq, hqp⟩ := List.mem_map.mp hp
        have : st ∈ d._states := by
          rw [← hps, ← hqp]
          exact hall q hq
        rw [← hd2]
        exact ⟨rfl, this⟩
    | none =>
        dsimp only at hok
        by_cases hact : act
        · rw [if_pos hact] at hok
          have hd2 : d = d2 := Except.ok.inj hok
          rw [← hd2]
          exact ⟨rfl, hst⟩
        · rw [if_neg hact] at hok
          cases hO : pyGet d.pinsToState PinKey.off with
          | none => rw [hO] at hok; cases hok
          | some pv =>
              obtain ⟨x, offSt⟩ := pv
              rw [hO] at hok
              dsimp only at hok
              have hoffmem : offSt ∈ d._states := hall (PinKey.off, (x, offSt)) (pyGet_mem hO)
              by_cases hne : d._state ≠ offSt
              · rw [if_pos hne] at hok
                have hd2 : { d with _state := offSt } = d2 := Except.ok.inj hok
                rw [← hd2]
                exact ⟨rfl, hoffmem⟩
              · rw [if_neg hne] at hok
                have hd2 : d = d2 := Except.ok.inj hok
                rw [← hd2]
                exact ⟨rfl, hst⟩

/-- C8 witness: a toggle button pressed high, and a two-position switch
with no active pin falling back to its off-mapped state idle. -/
theorem C8_recompute_preserves_enumeration_witness :
    ((toggle_state true ⟨"btn", "off", some false, 1/10⟩).1)._state ∈ tbStates
    ∧ ((⟨"sw", ["high", "idle"],
          [(PinKey.hw 4, (some 4, "high")), (PinKey.off, (none, "idle"))],
          "idle"⟩ : SwitchDev)._states
        = (⟨"sw", ["high", "idle"],
            [(PinKey.hw 4, (some 4, "high")), (PinKey.off, (none, "idle"))],
            "high"⟩ : SwitchDev)._states
      ∧ (⟨"sw", ["high", "idle"],
          [(PinKey.hw 4, (some 4, "high")), (PinKey.off, (none, "idle"))],
          "idle"⟩ : SwitchDev)._state
        ∈ (⟨"sw", ["high", "idle"],
            [(PinKey.hw 4, (some 4, "high")), (PinKey.off, (none, "idle"))],
            "high"⟩ : SwitchDev)._states) := by
  constructor
  · exact C8_recompute_preserves_enumeration.1 true
      ⟨"btn", "off", some false, 1/10⟩ (by decide)
  · exact C8_recompute_preserves_enumeration.2 (fun _ => false)
      ⟨"sw", ["high", "idle"],
        [(PinKey.hw 4, (some 4, "high")), (PinKey.off, (none, "idle"))], "high"⟩
      ⟨"sw", ["high", "idle"],
        [(PinKey.hw 4, (some 4, "high")), (PinKey.off, (none, "idle"))], "idle"⟩
      (by decide) (by decide) (by decide)

/-- C9: a successfully handled request whose handler returns a dict or a
list is serialised as a JSON envelope holding exactly the keys parameters
(the parsed query mapping, or empty), response (the handler result) and
status (the numeric code), under the JSON content type; any other non-None
result is instead written literally as the body content (between the page
template writes under the HTML content type). -/
theorem C9_json_envelope_or_literal_body
    (routes : List (String × Handler)) (navs : List String)
    (line peer route : String) (params : Option Params) (h : Handler)
    (hparse : parseRequestLine line = Except.ok (route, params))
    (hroute : pyGet routes route = some h) :
    (∀ kvs, h (params.getD []) = PyResult.dict kvs →
        route_requests routes navs line peer =
          Except.ok ([Chunk.statusHeaders 200 "OK" HTTP_CONTENT_TYPE.JSON,
              Chunk.jsonBody (JsonVal.obj
                [("parameters", paramsJson params),
                 ("response", JsonVal.obj kvs),
                 ("status", JsonVal.num 200)])],
            ⟨LogLevel.info, params.getD [], route, 200, peer⟩))
    ∧ (∀ xs, h (params.getD []) = PyResult.list xs →
        route_requests routes navs line peer =
          Except.ok ([Chunk.statusHeaders 200 "OK" HTTP_CONTENT_TYPE.JSON,
              Chunk.jsonBody (JsonVal.obj
                [("parameters", paramsJson params),
                 ("response", JsonVal.arr xs),
                 ("status", JsonVal.num 200)])],
            ⟨LogLevel.info, params.getD [], route, 200, peer⟩))
    ∧ (∀ content, h (params.getD []) = PyResult.io content →
        ¬ route = "/favicon.ico" →
        route_requests routes navs line peer =
          Except.ok ([Chunk.statusHeaders 200 "OK" HTTP_CONTENT_TYPE.HTML,
              Chunk.htmlPre route navs,
              Chunk.ioBody content,
              Chunk.htmlPost],
            ⟨LogLevel.info, params.getD [], route, 200, peer⟩)) := by
  refine ⟨?_, ?_, ?_⟩
  · intro kvs hres
    simp [route_requests, hparse, dispatch, hroute, hres]
  · intro xs hres
    simp [route_requests, hparse, dispatch, hroute, hres]
  · intro content hres hfav
    simp [route_requests, hparse, dispatch, hroute, hres, hfav]

/-- C9 witness: a state query with one parameter answered by a dict
result. -/
theorem C9_json_envelope_or_literal_body_witness :
    route_requests [("/fan/state", fun _ => PyResult.dict
        [("state", JsonVal.str "on")])] ["/docs"]
      "GET /fan/state?fmt=raw HTTP/1.1" "10.0.0.9:41000" =
      Except.ok ([Chunk.statusHeaders 200 "OK" HTTP_CONTENT_TYPE.JSON,
          Chunk.jsonBody (JsonVal.obj
            [("parameters", paramsJson (some [("fmt", "raw")])),
             ("response", JsonVal.obj [("state", JsonVal.str "on")]),
             ("status", JsonVal.num 200)])],
        ⟨LogLevel.info, [("fmt", "raw")], "/fan/state", 200, "10.0.0.9:41000"⟩) :=
  (C9_json_envelope_or_literal_body
    [("/fan/state", fun _ => PyResult.dict [("state", JsonVal.str "on")])]
    ["/docs"] "GET /fan/state?fmt=raw HTTP/1.1" "10.0.0.9:41000" "/fan/state"
    (some [("fmt", "raw")])
    (fun _ => PyResult.dict [("state", JsonVal.str "on")])
    rfl rfl).1 [("state", JsonVal.str "on")] rfl

end Breadboard
